import Mathlib

/-!
Verification of the natural-language-to-SQL pipeline of the finchat
repository (modules/utils.py, modules/redshift_client.py,
modules/query_generator.py, modules/bedrock_client.py).

Strings are modelled as Lean `String` / `List Char`; Python string
primitives (`strip`, `upper`, `startswith`, `count`, `endswith`,
`split`, `rsplit`) are embedded as executable functions below.  The
whitespace set and `upper` are modelled for ASCII, which covers every
string the program builds and every concrete input considered here.
-/

/-- Whitespace characters stripped by Python `str.strip` (ASCII range). -/
def pyIsSpace (c : Char) : Bool :=
  c == ' ' || c == '\t' || c == '\n' || c == '\r' || c == '\x0b' || c == '\x0c'

/-- Python `str.lstrip` on a character list. -/
def lstripL (s : List Char) : List Char := s.dropWhile pyIsSpace

/-- Python `str.rstrip` on a character list. -/
def rstripL (s : List Char) : List Char := (s.reverse.dropWhile pyIsSpace).reverse

/-- Python `str.strip` on a character list. -/
def stripL (s : List Char) : List Char := rstripL (lstripL s)

/-- Python `str.upper` on a character list (ASCII case mapping). -/
def upperL (s : List Char) : List Char := s.map Char.toUpper

/-- Word characters for the regex `\b` boundary (`\w`, ASCII range). -/
def isWordChar (c : Char) : Bool := c.isAlphanum || c == '_'

/-- A position is a word boundary when the neighbouring character is
absent or is not a word character. -/
def boundaryOk : Option Char → Bool
  | none => true
  | some c => !isWordChar c

/-- The keyword `kw` occurs at the head of `s` as a standalone word,
given the character `prev` immediately before this position. -/
def wordAt (kw s : List Char) (prev : Option Char) : Bool :=
  kw.isPrefixOf s && boundaryOk prev && boundaryOk (s.drop kw.length).head?

/-- Scan of `re.search` for a whole-word occurrence, carrying the
previous character. -/
def containsWordFrom (kw : List Char) : Option Char → List Char → Bool
  | prev, [] => wordAt kw [] prev
  | prev, c :: rest => wordAt kw (c :: rest) prev || containsWordFrom kw (some c) rest

/-- Embedding of Python `re.search(r'\b' + kw + r'\b', s)` for a keyword
`kw` made of word characters: `kw` occurs in `s` as a standalone word. -/
def containsWordL (kw s : List Char) : Bool := containsWordFrom kw none s

/-- The blocked keyword list of `validate_sql_safety`
(modules/utils.py lines 85 to 89), in source order. -/
def dangerous_keywords : List String :=
  ["DROP", "DELETE", "INSERT", "UPDATE",
   "ALTER", "CREATE", "TRUNCATE", "GRANT",
   "REVOKE", "EXEC", "EXECUTE"]

/-- Embedding of `validate_sql_safety` (modules/utils.py lines 72 to 108):
uppercase the text, reject on the first blocked keyword occurring as a
standalone word, then require a leading SELECT after stripping, then
reject stacked statements by semicolon counting, allowing one trailing
semicolon.  Returns the Python pair `(is_valid, error_message)`. -/
def validate_sql_safety (sql : String) : Bool × String :=
  let sql_upper := upperL sql.data
  match dangerous_keywords.find? (fun kw => containsWordL kw.data sql_upper) with
  | some kw => (false, "Dangerous SQL keyword detected: " ++ kw)
  | none =>
    if !("SELECT".data.isPrefixOf (stripL sql_upper)) then
      (false, "Query must start with SELECT")
    else if sql.data.count ';' > 1 then
      (false, "Multiple SQL statements not allowed")
    else if sql.data.count ';' == 1 && !((rstripL sql.data).getLast? == some ';') then
      (false, "Multiple SQL statements not allowed")
    else
      (true, "")

example : validate_sql_safety "SELECT * FROM t; " = (true, "") := by decide
example : validate_sql_safety "drop table users" =
    (false, "Dangerous SQL keyword detected: DROP") := by decide
example : validate_sql_safety "SELECT 1; SELECT 2;" =
    (false, "Multiple SQL statements not allowed") := by decide

/-- C1: any input containing a blocked verb as a standalone word
(case-insensitively) is rejected, and the reason names a blocked verb
that does occur standalone in the input; when the given verb is the only
one occurring, the reason names exactly that verb. -/
theorem validate_sql_safety_blocks_keywords (sql : String) (kw : String)
    (hmem : kw ∈ dangerous_keywords)
    (hfound : containsWordL kw.data (upperL sql.data) = true) :
    (validate_sql_safety sql).1 = false
    ∧ (∃ kw2 ∈ dangerous_keywords,
        containsWordL kw2.data (upperL sql.data) = true
        ∧ (validate_sql_safety sql).2 = "Dangerous SQL keyword detected: " ++ kw2)
    ∧ ((∀ kw2 ∈ dangerous_keywords, kw2 ≠ kw →
          containsWordL kw2.data (upperL sql.data) = false) →
        (validate_sql_safety sql).2 = "Dangerous SQL keyword detected: " ++ kw) := by
  have hsome : (dangerous_keywords.find?
      (fun k => containsWordL k.data (upperL sql.data))).isSome := by
    rw [List.find?_isSome]
    exact ⟨kw, hmem, hfound⟩
  obtain ⟨a, ha⟩ := Option.isSome_iff_exists.mp hsome
  have hpa : containsWordL a.data (upperL sql.data) = true := by
    have h := @List.find?_some String
      (fun k => containsWordL k.data (upperL sql.data)) a dangerous_keywords ha
    simpa using h
  have hamem : a ∈ dangerous_keywords := List.mem_of_find?_eq_some ha
  have hval : validate_sql_safety sql =
      (false, "Dangerous SQL keyword detected: " ++ a) := by
    simp only [validate_sql_safety]
    rw [ha]
  refine ⟨by rw [hval], ⟨a, hamem, hpa, by rw [hval]⟩, ?_⟩
  intro huniq
  have : a = kw := by
    by_contra hne
    have := huniq a hamem hne
    simp [this] at hpa
  rw [hval, this]

/-- Witness for C1 at the concrete input "drop table users" with the
keyword DROP. -/
theorem validate_sql_safety_blocks_keywords_witness :
    "DROP" ∈ dangerous_keywords
    ∧ containsWordL "DROP".data (upperL "drop table users".data) = true
    ∧ (validate_sql_safety "drop table users").1 = false := by
  refine ⟨by decide, by decide, ?_⟩
  exact (validate_sql_safety_blocks_keywords "drop table users" "DROP"
    (by decide) (by decide)).1

/-- C4 counterexample: the input "DROP TABLE users" does not start with
SELECT after trimming, yet the verdict's reason is the keyword reason,
not "Query must start with SELECT", because the keyword rule is checked
first. -/
theorem validate_sql_safety_keyword_precedes_start_cex :
    "SELECT".data.isPrefixOf (stripL (upperL "DROP TABLE users".data)) = false
    ∧ validate_sql_safety "DROP TABLE users" =
        (false, "Dangerous SQL keyword detected: DROP")
    ∧ (validate_sql_safety "DROP TABLE users").2 ≠ "Query must start with SELECT" := by
  refine ⟨by decide, by decide, by decide⟩

/-- C4 (amended): any input that contains no blocked keyword as a
standalone word and does not start with SELECT after trimming is
rejected with reason "Query must start with SELECT". -/
theorem validate_sql_safety_start_token (sql : String)
    (hkw : ∀ kw ∈ dangerous_keywords,
      containsWordL kw.data (upperL sql.data) = false)
    (hsel : "SELECT".data.isPrefixOf (stripL (upperL sql.data)) = false) :
    validate_sql_safety sql = (false, "Query must start with SELECT") := by
  have hnone : List.find?
      (fun kw => containsWordL kw.data (upperL sql.data)) dangerous_keywords = none :=
    List.find?_eq_none.mpr (by intro x hx; simp [hkw x hx])
  simp [validate_sql_safety, hnone, hsel]

/-- Witness for C4 (amended) at the concrete input "SHOW TABLES". -/
theorem validate_sql_safety_start_token_witness :
    validate_sql_safety "SHOW TABLES" = (false, "Query must start with SELECT") :=
  validate_sql_safety_start_token "SHOW TABLES" (by decide) (by decide)

/-- C5 counterexample: the input "DROP;;" contains two semicolons, yet
its verdict's reason is the keyword reason, not "Multiple SQL statements
not allowed", because the keyword rule is checked first. -/
theorem validate_sql_safety_keyword_precedes_semicolon_cex :
    List.count ';' "DROP;;".data = 2
    ∧ validate_sql_safety "DROP;;" = (false, "Dangerous SQL keyword detected: DROP")
    ∧ (validate_sql_safety "DROP;;").2 ≠ "Multiple SQL statements not allowed" := by
  refine ⟨by decide, by decide, by decide⟩

/-- C5 (amended): for input passing the earlier rules (no blocked
keyword, leading SELECT), more than one semicolon, or exactly one that
is not the final character after trimming trailing whitespace, is
rejected with reason "Multiple SQL statements not allowed"; exactly one
trailing semicolon, or none, is accepted.  Independently of those
hypotheses, every input with stacked semicolons is rejected (though
possibly with an earlier rule's reason). -/
theorem validate_sql_safety_semicolons (sql : String)
    (hkw : ∀ kw ∈ dangerous_keywords,
      containsWordL kw.data (upperL sql.data) = false)
    (hsel : "SELECT".data.isPrefixOf (stripL (upperL sql.data)) = true) :
    (sql.data.count ';' > 1 →
      validate_sql_safety sql = (false, "Multiple SQL statements not allowed"))
    ∧ (sql.data.count ';' = 1 → (rstripL sql.data).getLast? ≠ some ';' →
      validate_sql_safety sql = (false, "Multiple SQL statements not allowed"))
    ∧ (sql.data.count ';' = 1 → (rstripL sql.data).getLast? = some ';' →
      validate_sql_safety sql = (true, ""))
    ∧ (sql.data.count ';' = 0 → validate_sql_safety sql = (true, ""))
    ∧ (∀ q : String,
        (q.data.count ';' > 1
          ∨ (q.data.count ';' = 1 ∧ (rstripL q.data).getLast? ≠ some ';')) →
        (validate_sql_safety q).1 = false) := by
  have hnone : List.find?
      (fun kw => containsWordL kw.data (upperL sql.data)) dangerous_keywords = none :=
    List.find?_eq_none.mpr (by intro x hx; simp [hkw x hx])
  refine ⟨?_, ?_, ?_, ?_, ?_⟩
  · intro hgt
    simp [validate_sql_safety, hnone, hsel, hgt, Nat.not_lt_of_lt]
  · intro hone hne
    have hbeq : ((rstripL sql.data).getLast? == some ';') = false := by
      simpa using hne
    simp [validate_sql_safety, hnone, hsel, hone, hbeq]
  · intro hone hlast
    simp [validate_sql_safety, hnone, hsel, hone, hlast]
  · intro hzero
    simp [validate_sql_safety, hnone, hsel, hzero]
  · intro q hbad
    cases hf : List.find?
        (fun kw => containsWordL kw.data (upperL q.data)) dangerous_keywords with
    | some k => simp [validate_sql_safety, hf]
    | none =>
      by_cases hs : "SELECT".data.isPrefixOf (stripL (upperL q.data)) = true
      · rcases hbad with hgt | ⟨hone, hne⟩
        · simp [validate_sql_safety, hf, hs, hgt]
        · have hbeq : ((rstripL q.data).getLast? == some ';') = false := by
            simpa using hne
          simp [validate_sql_safety, hf, hs, hone, hbeq]
      · simp [validate_sql_safety, hf, hs]

/-- Witness for C5 (amended) at the three concrete inputs named by the
specification. -/
theorem validate_sql_safety_semicolons_witness :
    validate_sql_safety "SELECT * FROM t; " = (true, "")
    ∧ validate_sql_safety "SELECT 1; SELECT 2;" =
        (false, "Multiple SQL statements not allowed")
    ∧ validate_sql_safety "SELECT 1;SELECT 2" =
        (false, "Multiple SQL statements not allowed") := by
  refine ⟨?_, ?_, ?_⟩
  · exact (validate_sql_safety_semicolons "SELECT * FROM t; "
      (by decide) (by decide)).2.2.1 (by decide) (by decide)
  · exact (validate_sql_safety_semicolons "SELECT 1; SELECT 2;"
      (by decide) (by decide)).1 (by decide)
  · exact (validate_sql_safety_semicolons "SELECT 1;SELECT 2"
      (by decide) (by decide)).2.1 (by decide) (by decide)

/-- Embedding of `truncate_results` (modules/utils.py lines 151 to 166):
Python returns `(results[:max_rows], len(results) > max_rows)`. -/
def truncate_results (results : List α) (max_rows : Nat) : List α × Bool :=
  (results.take max_rows, decide (results.length > max_rows))

/-- Embedding of the inline row-limiting step of
`RedShiftClient.execute_query` (modules/redshift_client.py lines 141 to
147): if the materialized row list exceeds `maxRows` it is cut to the
first `maxRows` rows, otherwise returned unmodified. -/
def limit_results (results : List α) (maxRows : Nat) : List α :=
  if results.length > maxRows then results.take maxRows else results

/-- C2: the rows returned by the execution path never exceed the
configured maximum and agree with `truncate_results`; a 305-row result
with maxRows 300 yields exactly 300 rows marked truncated, and a 50-row
result is returned unmodified and unmarked. -/
theorem execute_query_row_cap {α : Type} (maxRows : Nat) (rowsA rowsB : List α)
    (hmax : maxRows = 300) (hA : rowsA.length = 305) (hB : rowsB.length = 50) :
    (∀ rows : List α, (limit_results rows maxRows).length ≤ maxRows
      ∧ limit_results rows maxRows = (truncate_results rows maxRows).1)
    ∧ (truncate_results rowsA maxRows).1.length = 300
    ∧ (truncate_results rowsA maxRows).2 = true
    ∧ truncate_results rowsB maxRows = (rowsB, false) := by
  subst hmax
  refine ⟨?_, ?_, ?_, ?_⟩
  · intro rows
    constructor
    · by_cases h : rows.length > 300
      · simp only [limit_results, if_pos h, List.length_take]
        omega
      · simp only [limit_results, if_neg h]
        omega
    · by_cases h : rows.length > 300
      · simp [limit_results, truncate_results, h]
      · simp only [limit_results, truncate_results, if_neg h]
        exact (List.take_of_length_le (by omega)).symm
  · simp [truncate_results, List.length_take, hA]
  · simp [truncate_results, hA]
  · have h1 : rowsB.take 300 = rowsB := List.take_of_length_le (by omega)
    have h2 : decide (rowsB.length > 300) = false := by
      rw [hB]
      decide
    simp [truncate_results, h1, h2]

/-- Witness for C2 at concrete 305-row and 50-row results. -/
theorem execute_query_row_cap_witness :
    (truncate_results (List.replicate 305 (0 : Nat)) 300).1.length = 300
    ∧ (truncate_results (List.replicate 305 (0 : Nat)) 300).2 = true
    ∧ truncate_results (List.replicate 50 (0 : Nat)) 300 =
        (List.replicate 50 (0 : Nat), false) := by
  have h := execute_query_row_cap 300 (List.replicate 305 (0 : Nat))
    (List.replicate 50 (0 : Nat)) rfl (List.length_replicate 305 0)
    (List.length_replicate 50 0)
  exact ⟨h.2.1, h.2.2.1, h.2.2.2⟩

/-- Fence marker `"```"` recognized by
`BedrockClient._extract_sql_from_response`. -/
def fenceMarker : List Char := "```".data

/-- Python `sql.split('\n', 1)[1]`: the characters after the first
newline (callers guard on the newline being present). -/
def dropThroughNl : List Char → List Char
  | [] => []
  | c :: r => if c = '\n' then r else dropThroughNl r

/-- The pattern `pat` occurs in `s` starting at index `i`. -/
def occursAtIdx (pat s : List Char) (i : Nat) : Bool := pat.isPrefixOf (s.drop i)

/-- Index of the rightmost occurrence of `pat` in `s`, as found by
Python `str.rfind` / `str.rsplit(pat, 1)`. -/
def lastOccIdx (pat s : List Char) : Option Nat :=
  ((List.range (s.length + 1)).filter (occursAtIdx pat s)).getLast?

/-- Python `s.rsplit(pat, 1)[0]`: everything before the rightmost
occurrence of `pat`, or all of `s` when `pat` does not occur. -/
def rsplitHead (pat s : List Char) : List Char :=
  match lastOccIdx pat s with
  | none => s
  | some i => s.take i

/-- Fence-handling step of `BedrockClient._extract_sql_from_response`
(modules/bedrock_client.py lines 260 to 263): if the stripped text
opens with a fence marker, discard the first line (when a newline
exists) and drop a trailing fence (when present). -/
def extractCore (sql : List Char) : List Char :=
  if fenceMarker.isPrefixOf sql then
    let sql2 := if sql.contains '\n' then dropThroughNl sql else sql
    if fenceMarker.isSuffixOf sql2 then rsplitHead fenceMarker sql2 else sql2
  else sql

/-- Embedding of `BedrockClient._extract_sql_from_response`
(modules/bedrock_client.py lines 246 to 268): strip, apply the
fence-handling step, strip again. -/
def extract_sql_from_response (response : String) : String :=
  String.mk (stripL (extractCore (stripL response.data)))

example : extract_sql_from_response "```sql\nSELECT 1\n```" = "SELECT 1" := by decide
example : extract_sql_from_response "SELECT 1" = "SELECT 1" := by decide

/-- C9 counterexample: re-applying extract to an extracted output is not
always a no-op — extracting six backticks yields "```", and extracting
that again yields the empty string. -/
theorem extract_sql_not_idempotent_cex :
    extract_sql_from_response "``````" = "```"
    ∧ extract_sql_from_response "```" = ""
    ∧ extract_sql_from_response (extract_sql_from_response "``````")
        ≠ extract_sql_from_response "``````" := by
  refine ⟨by decide, by decide, by decide⟩

/-- C9 (amended): extract strips a leading fence line and a trailing
fence — mapping the fenced example to "SELECT 1" — and is the identity
on any already-trimmed string that does not open with a fence marker
(hence a no-op on extracted output not opening with a fence marker). -/
theorem extract_sql_clean (s : String)
    (htrim : stripL s.data = s.data)
    (hfence : fenceMarker.isPrefixOf s.data = false) :
    extract_sql_from_response "```sql\nSELECT 1\n```" = "SELECT 1"
    ∧ extract_sql_from_response s = s := by
  refine ⟨by decide, ?_⟩
  have hcore : extractCore s.data = s.data := by
    simp [extractCore, hfence]
  calc extract_sql_from_response s
      = String.mk (stripL (extractCore (stripL s.data))) := rfl
    _ = String.mk (stripL (extractCore s.data)) := by rw [htrim]
    _ = String.mk (stripL s.data) := by rw [hcore]
    _ = String.mk s.data := by rw [htrim]
    _ = s := by cases s; rfl

/-- Witness for C9 (amended) at the concrete input "SELECT 1". -/
theorem extract_sql_clean_witness :
    extract_sql_from_response "SELECT 1" = "SELECT 1" :=
  (extract_sql_clean "SELECT 1" (by decide) (by decide)).2

/-- Column description built by `RedShiftClient.get_schema`
(modules/redshift_client.py lines 238 to 245). -/
structure ColumnInfo where
  name : String
  type : String
  nullable : Bool
deriving DecidableEq

/-- Table description built by `RedShiftClient.get_schema`
(modules/redshift_client.py lines 236 to 246). -/
structure TableInfo where
  name : String
  columns : List ColumnInfo
deriving DecidableEq

/-- The schema dictionary shape returned by `RedShiftClient.get_schema`. -/
structure SchemaInfo where
  tables : List TableInfo
deriving DecidableEq

/-- Embedding of the error handling of `RedShiftClient.get_schema`
(modules/redshift_client.py lines 179 and 253 to 255): the body that
lists tables and their columns is abstracted as `fetchResult`; any
exception in it is caught and the empty schema dictionary is returned
instead of propagating the failure. -/
def get_schema (fetchResult : Except String SchemaInfo) : SchemaInfo :=
  match fetchResult with
  | Except.ok info => info
  | Except.error _ => ⟨[]⟩

/-- The two cache fields of `QueryGenerator`
(modules/query_generator.py lines 30 and 31). -/
structure CacheState where
  schema_cache : Option SchemaInfo
  schema_cache_time : Option Int
deriving DecidableEq

/-- The cache TTL `cache_duration = 300` of `QueryGenerator._get_schema_info`
(modules/query_generator.py line 151). -/
def cache_duration : Int := 300

/-- The cache-hit condition of `QueryGenerator._get_schema_info`
(modules/query_generator.py lines 153 to 157): both fields set and the
elapsed time below the TTL. -/
def cacheHit (st : CacheState) (current_time : Int) : Bool :=
  match st.schema_cache, st.schema_cache_time with
  | some _, some t => decide (current_time - t < cache_duration)
  | _, _ => false

/-- Embedding of `QueryGenerator._get_schema_info`
(modules/query_generator.py lines 142 to 171): on a cache hit return
the memoized snapshot unchanged; otherwise run `get_schema` on the
fetch outcome, store its result and the current time unconditionally,
and return it.  The third component records whether the underlying
fetch was performed. -/
def get_schema_info (st : CacheState) (current_time : Int)
    (fetchResult : Except String SchemaInfo) :
    SchemaInfo × CacheState × Bool :=
  if cacheHit st current_time then
    (st.schema_cache.getD ⟨[]⟩, st, false)
  else
    let s := get_schema fetchResult
    (s, ⟨some s, some current_time⟩, true)

/-- Embedding of the schema check of `QueryGenerator.generate_and_execute`
(modules/query_generator.py lines 65 to 75): an empty-tables schema is
turned into an error envelope with error text "Schema retrieval failed"
rather than an exception. -/
def schema_check_error (schema : SchemaInfo) : Option String :=
  if schema.tables.isEmpty then some "Schema retrieval failed" else none

/-- C3 counterexample: after a successful fetch of a non-empty snapshot
at time 0, a failed fetch at time 400 (past the TTL) does not serve the
stale snapshot: it returns the empty schema and overwrites the cached
snapshot with it. -/
theorem schema_cache_overwritten_on_failure_cex :
    ((get_schema_info ⟨none, none⟩ 0
        (Except.ok ⟨[⟨"public.orders", [⟨"id", "integer", false⟩]⟩]⟩)).2.1.schema_cache
      = some ⟨[⟨"public.orders", [⟨"id", "integer", false⟩]⟩]⟩)
    ∧ (get_schema_info ⟨some ⟨[⟨"public.orders", [⟨"id", "integer", false⟩]⟩]⟩, some 0⟩
        400 (Except.error "connection refused")).1
      ≠ ⟨[⟨"public.orders", [⟨"id", "integer", false⟩]⟩]⟩
    ∧ (get_schema_info ⟨some ⟨[⟨"public.orders", [⟨"id", "integer", false⟩]⟩]⟩, some 0⟩
        400 (Except.error "connection refused")).1 = ⟨[]⟩
    ∧ (get_schema_info ⟨some ⟨[⟨"public.orders", [⟨"id", "integer", false⟩]⟩]⟩, some 0⟩
        400 (Except.error "connection refused")).2.1.schema_cache = some ⟨[]⟩ := by
  refine ⟨by decide, by decide, by decide, by decide⟩

/-- C3 (amended): on any fetch failure `get_schema` swallows the
exception and yields the empty schema; on a cache miss this empty
schema is returned and stored, replacing whatever snapshot was cached
before, and the orchestrator maps it to the "Schema retrieval failed"
error envelope instead of propagating a SchemaUnavailable failure. -/
theorem schema_fetch_failure_served_empty (st : CacheState) (now : Int) (err : String)
    (hmiss : cacheHit st now = false) :
    get_schema (Except.error err) = ⟨[]⟩
    ∧ get_schema_info st now (Except.error err) = (⟨[]⟩, ⟨some ⟨[]⟩, some now⟩, true)
    ∧ schema_check_error ⟨[]⟩ = some "Schema retrieval failed" := by
  refine ⟨rfl, ?_, rfl⟩
  simp [get_schema_info, hmiss, get_schema]

/-- Witness for C3 (amended): a failed fetch at time 400 over a cache
holding a snapshot fetched at time 0. -/
theorem schema_fetch_failure_served_empty_witness :
    get_schema_info ⟨some ⟨[⟨"t", []⟩]⟩, some 0⟩ 400 (Except.error "timeout")
      = (⟨[]⟩, ⟨some ⟨[]⟩, some 400⟩, true) :=
  (schema_fetch_failure_served_empty ⟨some ⟨[⟨"t", []⟩]⟩, some 0⟩ 400 "timeout"
    (by decide)).2.1

/-- C8: a first call on an empty cache performs the fetch and memoizes
the snapshot with its time; a second call within the TTL returns that
snapshot unchanged without fetching (even though a fresh fetch would
return different data); a call after the TTL fetches again and returns
the newer snapshot. -/
theorem schema_cache_ttl (t0 t1 t2 : Int) (A B : SchemaInfo)
    (h1 : t1 - t0 < 300) (h2 : ¬ (t2 - t0 < 300)) :
    (get_schema_info ⟨none, none⟩ t0 (Except.ok A)).1 = A
    ∧ (get_schema_info ⟨none, none⟩ t0 (Except.ok A)).2.2 = true
    ∧ (get_schema_info ⟨none, none⟩ t0 (Except.ok A)).2.1 = ⟨some A, some t0⟩
    ∧ (get_schema_info ⟨some A, some t0⟩ t1 (Except.ok B)).1 = A
    ∧ (get_schema_info ⟨some A, some t0⟩ t1 (Except.ok B)).2.1 = ⟨some A, some t0⟩
    ∧ (get_schema_info ⟨some A, some t0⟩ t1 (Except.ok B)).2.2 = false
    ∧ (get_schema_info ⟨some A, some t0⟩ t2 (Except.ok B)).1 = B
    ∧ (get_schema_info ⟨some A, some t0⟩ t2 (Except.ok B)).2.2 = true := by
  have hmiss0 : cacheHit ⟨none, none⟩ t0 = false := rfl
  have hhit : cacheHit ⟨some A, some t0⟩ t1 = true := by
    simp [cacheHit, cache_duration, h1]
  have hmiss2 : cacheHit ⟨some A, some t0⟩ t2 = false := by
    simp [cacheHit, cache_duration, h2]
  refine ⟨?_, ?_, ?_, ?_, ?_, ?_, ?_, ?_⟩ <;>
    simp [get_schema_info, hmiss0, hhit, hmiss2, get_schema]

/-- Witness for C8 with a fetch at time 0, a hit at time 100 and a
refetch at time 400. -/
theorem schema_cache_ttl_witness :
    (get_schema_info ⟨some ⟨[⟨"a", []⟩]⟩, some 0⟩ 100 (Except.ok ⟨[⟨"b", []⟩]⟩)).1
      = ⟨[⟨"a", []⟩]⟩
    ∧ (get_schema_info ⟨some ⟨[⟨"a", []⟩]⟩, some 0⟩ 100 (Except.ok ⟨[⟨"b", []⟩]⟩)).2.2
      = false
    ∧ (get_schema_info ⟨some ⟨[⟨"a", []⟩]⟩, some 0⟩ 400 (Except.ok ⟨[⟨"b", []⟩]⟩)).1
      = ⟨[⟨"b", []⟩]⟩ := by
  have h := schema_cache_ttl 0 100 400 ⟨[⟨"a", []⟩]⟩ ⟨[⟨"b", []⟩]⟩
    (by decide) (by decide)
  exact ⟨h.2.2.2.1, h.2.2.2.2.2.1, h.2.2.2.2.2.2.1⟩

/-- A Python exception as seen by the error-handling code: its class
name `type(e).__name__` and its text `str(e)`. -/
structure PyError where
  ename : String
  emsg : String
deriving DecidableEq

/-- The `friendly_messages` mapping of `format_error_message`
(modules/utils.py lines 184 to 197). -/
def friendly_messages : List (String × String) :=
  [("OperationalError",
    "Database connection error. Please check your connection settings."),
   ("ProgrammingError",
    "Invalid SQL query generated. Please try rephrasing your question."),
   ("TimeoutError",
    "Query took too long to execute. Please try a more specific question.")]

/-- The `friendly_messages.get(error_type, default)` lookup of
`format_error_message` (modules/utils.py lines 199 to 203). -/
def friendlyLookup (ename : String) : String :=
  (((friendly_messages.find? (fun p => p.1 == ename)).map Prod.snd)).getD
    "An error occurred while processing your request. Please try again."

/-- Embedding of `format_error_message` (modules/utils.py lines 169 to
205): user-friendly mode maps the error class name through the fixed
message table; otherwise the raw error text is returned. -/
def format_error_message (e : PyError) (user_friendly : Bool) : String :=
  if user_friendly then friendlyLookup e.ename else e.emsg

/-- The result dictionary of `QueryGenerator.generate_and_execute`
(the `execution_time` entry, a wall-clock float, is omitted). -/
structure RequestEnvelope where
  response : String
  sql_query : Option String
  results : List (List (String × String))
  error : Option String
deriving DecidableEq

/-- Embedding of the general exception branch of
`QueryGenerator.generate_and_execute` (modules/query_generator.py lines
129 to 140): the response is the user-friendly message but the `error`
entry is `str(e)`, the raw exception text. -/
def general_error_envelope (e : PyError) : RequestEnvelope :=
  { response := format_error_message e true
    sql_query := none
    results := []
    error := some e.emsg }

/-- C7 counterexample: two database failures with the same class but
different raw backend texts produce envelopes whose `error` fields
carry the raw texts, so the envelopes differ and the raw database error
text reaches the caller. -/
theorem error_envelope_leaks_cex :
    (general_error_envelope
        ⟨"OperationalError", "FATAL: password authentication failed for user admin"⟩).error
      = some "FATAL: password authentication failed for user admin"
    ∧ general_error_envelope
        ⟨"OperationalError", "FATAL: password authentication failed for user admin"⟩
      ≠ general_error_envelope
        ⟨"OperationalError", "could not connect to server: Connection refused"⟩ := by
  refine ⟨rfl, by decide⟩

/-- C7 (amended): the `response` field shown to the user is a generic
message depending only on the error class name — two failures of the
same class always get the same response text — but the envelope's
`error` field contains the raw error text `str(e)`. -/
theorem error_envelope_response_generic (e : PyError) :
    (general_error_envelope e).response = friendlyLookup e.ename
    ∧ (∀ e2 : PyError, e2.ename = e.ename →
        (general_error_envelope e2).response = (general_error_envelope e).response)
    ∧ (general_error_envelope e).error = some e.emsg := by
  refine ⟨rfl, ?_, rfl⟩
  intro e2 h
  simp [general_error_envelope, format_error_message, h]

/-- Witness for C7 (amended) at two concrete OperationalError values. -/
theorem error_envelope_response_generic_witness :
    (general_error_envelope ⟨"OperationalError", "raw detail one"⟩).response
      = friendlyLookup "OperationalError"
    ∧ (general_error_envelope ⟨"OperationalError", "raw detail two"⟩).response
      = (general_error_envelope ⟨"OperationalError", "raw detail one"⟩).response
    ∧ (general_error_envelope ⟨"OperationalError", "raw detail one"⟩).error
      = some "raw detail one" := by
  have h := error_envelope_response_generic ⟨"OperationalError", "raw detail one"⟩
  exact ⟨h.1, h.2.1 ⟨"OperationalError", "raw detail two"⟩ rfl, h.2.2⟩

/-- The `schema_prefixes` tuple of `RedShiftClient.execute_query`
(modules/redshift_client.py line 112) that exempts schema-introspection
queries from safety validation. -/
def schema_query_markers : List String :=
  ["SELECT TABLE_SCHEMA", "SELECT COLUMN_NAME"]

/-- Embedding of the skip test of `RedShiftClient.execute_query`
(modules/redshift_client.py line 113):
`sql.strip().upper().startswith(schema_prefixes)`. -/
def skips_safety_validation (sql : String) : Bool :=
  schema_query_markers.any (fun p => p.data.isPrefixOf (upperL (stripL sql.data)))

/-- The table-listing query for a target schema
(modules/redshift_client.py lines 183 to 190), byte-for-byte. -/
def tables_sql_target : String :=
  "\n                    SELECT table_schema, table_name\n                    FROM information_schema.tables\n                    WHERE table_type = 'BASE TABLE'\n                        AND table_schema = %s\n                    ORDER BY table_name\n                    LIMIT 100\n                "

/-- The default table-listing query
(modules/redshift_client.py lines 198 to 210), byte-for-byte. -/
def tables_sql_default : String :=
  "\n                    SELECT table_schema, table_name\n                    FROM information_schema.tables\n                    WHERE table_type = 'BASE TABLE'\n                        AND table_schema NOT IN (\n                            'information_schema',\n                            'pg_catalog',\n                            'pg_internal'\n                        )\n                        AND table_schema LIKE 'public%'\n                    ORDER BY table_schema, table_name\n                    LIMIT 50\n                "

/-- The per-table column query
(modules/redshift_client.py lines 219 to 228), byte-for-byte. -/
def columns_sql : String :=
  "\n                    SELECT\n                        column_name,\n                        data_type,\n                        is_nullable\n                    FROM information_schema.columns\n                    WHERE table_schema = %s\n                        AND table_name = %s\n                    ORDER BY ordinal_position\n                "

set_option maxRecDepth 4096 in
/-- C6 counterexample: the per-table column query does not match either
skip marker (its first line is the bare word SELECT, so the character
after SELECT is a newline, not the space the markers require); the
safety validator is therefore applied to it, contrary to the claim that
every internal introspection query bypasses the validator. -/
theorem column_query_not_exempt_cex :
    skips_safety_validation columns_sql = false
    ∧ skips_safety_validation tables_sql_target = true := by
  refine ⟨rfl, rfl⟩

set_option maxRecDepth 8192 in
/-- C6 (amended): both table-listing queries match a skip marker and
bypass the safety validator; the per-table column query does not match
and is run through the validator, which accepts it, so all three
queries still execute through the shared execution path. -/
theorem schema_queries_validation_exemption :
    skips_safety_validation tables_sql_target = true
    ∧ skips_safety_validation tables_sql_default = true
    ∧ skips_safety_validation columns_sql = false
    ∧ validate_sql_safety columns_sql = (true, "") := by
  refine ⟨rfl, rfl, rfl, rfl⟩

/-- Outcome of the cursor work inside the try block of
`RedShiftClient.execute_query` (timeout SET, execute, fetchall): a
successful row list, a psycopg2 database error (which covers statement
timeouts), or any other exception.  All three reach the finally clause. -/
inductive ExecOutcome where
  | success (rows : List (List (String × String)))
  | dbError (e : PyError)
  | otherError (e : PyError)

/-- Environment oracle for one run of `RedShiftClient.execute_query`:
whether the pool was initialized, whether `pool.getconn()` succeeds,
and the outcome of the cursor work once a connection is held. -/
structure ExecEnv where
  pool_initialized : Bool
  getconn_ok : Bool
  outcome : ExecOutcome

/-- Control-flow embedding of `RedShiftClient.execute_query`
(modules/redshift_client.py lines 89 to 164) together with
`get_connection` (lines 61 to 77) and `return_connection` (lines 79 to
87).  Validation runs before the try block (a rejection raises
ValueError with `conn` never acquired); an uninitialized pool or a
failing `getconn` raises with `conn` still None, so the finally clause
releases nothing; once a connection is acquired, every outcome of the
cursor work — success (with the row cap applied), database error, or
any other exception — reaches the finally clause, which returns the
connection exactly once.  The second component counts the release
calls performed. -/
def execute_query_model (env : ExecEnv) (sql : String) (maxRows : Nat) :
    Except PyError (List (List (String × String))) × Nat :=
  if !skips_safety_validation sql && !(validate_sql_safety sql).1 then
    (Except.error ⟨"ValueError", "Unsafe SQL query: " ++ (validate_sql_safety sql).2⟩, 0)
  else if !env.pool_initialized then
    (Except.error ⟨"Exception", "Connection pool not initialized"⟩, 0)
  else if !env.getconn_ok then
    (Except.error ⟨"Exception", "Failed to get connection from pool"⟩, 0)
  else
    match env.outcome with
    | ExecOutcome.success rows => (Except.ok (limit_results rows maxRows), 1)
    | ExecOutcome.dbError e => (Except.error e, 1)
    | ExecOutcome.otherError e => (Except.error e, 1)

/-- A run acquires a connection exactly when validation passes (or is
skipped) and the pool hands one out. -/
def connection_acquired (env : ExecEnv) (sql : String) : Bool :=
  (skips_safety_validation sql || (validate_sql_safety sql).1)
    && env.pool_initialized && env.getconn_ok

/-- C10: on every exit path of query execution — success, database
error, timeout, or any other exception after acquisition — the number
of connection releases equals one exactly when a connection was
acquired, and zero otherwise: no path leaks an acquired connection and
no path releases twice. -/
theorem connection_released_exactly_once (env : ExecEnv) (sql : String) (maxRows : Nat) :
    (execute_query_model env sql maxRows).2 =
      if connection_acquired env sql then 1 else 0 := by
  obtain ⟨p, g, o⟩ := env
  cases hs : skips_safety_validation sql <;>
    cases hv : (validate_sql_safety sql).1 <;>
      cases p <;> cases g <;> cases o <;>
        simp [execute_query_model, connection_acquired, hs, hv]
